import Mathlib

/-
Verification development for the curam-ai property-intelligence backend.

The repository contains several overlapping drafts of the same pipeline.
The claims cite two of them:

 * `services/property_service.py` (async draft) together with its injected
   collaborators.  This file is truncated in the repository: it ends in the
   middle of the prompt literal of `_build_initial_llm_prompt`, so the
   methods `_check_for_search_necessity` and `_build_final_llm_prompt` as
   well as the tail of the prompt literal are absent.  The companion
   `LLMService` this draft expects (one exposing `gemini_is_available` and
   returning dicts with an `answer` key) is likewise absent; collaborator
   behaviour is therefore abstracted as function-valued environment fields,
   and the two missing helpers are modelled from the spec (marked below).
   Note that this draft never imports `Config`, so the two references to
   `Config.RSS_TOP_N_ARTICLES_FOR_LLM` and `Config.GOOGLE_CSE_TOP_N_RESULTS`
   raise `NameError` when reached; this is modelled faithfully.

 * `curam-ai-python-v3/services/property_service.py` (sync draft, complete)
   together with `services/llm_service.py`, used for the fallback-narrative
   claim.

`enhanced_database.py` supplies the persistence embedding (user token sums
and `delete_query`).  The SQLAlchemy model `Query` it imports is not in the
repository snapshot; the record type is modelled from the spec's
`QueryRecord`.
-/

namespace PropertyIntel

/-- listStarts hay needle: the list `hay` begins with `needle`. -/
def listStarts : List Char → List Char → Bool
  | _, [] => true
  | [], _ :: _ => false
  | h :: hs, n :: ns => h = n && listStarts hs ns

/-- listHasSub hay needle: `needle` occurs contiguously inside `hay`
(Python `needle in hay` on strings). -/
def listHasSub : List Char → List Char → Bool
  | [], needle => needle.isEmpty
  | h :: t, needle => listStarts (h :: t) needle || listHasSub t needle

/-- strHasSub hay needle: substring containment on strings. -/
def strHasSub (hay needle : String) : Bool :=
  listHasSub hay.data needle.data

/-- strStarts s p: the string `s` begins with `p`. -/
def strStarts (s p : String) : Bool :=
  listStarts s.data p.data

/-- joinLines is Python `"\n".join(...)`. -/
def joinLines : List String → String
  | [] => ""
  | [x] => x
  | x :: y :: rest => x ++ "\n" ++ joinLines (y :: rest)

/-- lowerChars: character-wise lower-casing, written structurally so that
concrete inputs evaluate inside proofs. -/
def lowerChars : List Char → List Char
  | [] => []
  | c :: rest => c.toLower :: lowerChars rest

/-- strToLower models Python `str.lower()`; the keyword tables are ASCII,
where character-wise lowering agrees with Python. -/
def strToLower (s : String) : String := String.mk (lowerChars s.data)

/-- upperChars: character-wise upper-casing. -/
def upperChars : List Char → List Char
  | [] => []
  | c :: rest => c.toUpper :: upperChars rest

/-- strToUpper models Python `str.upper()` on the ASCII constants it is
applied to. -/
def strToUpper (s : String) : String := String.mk (upperChars s.data)

/-! ## The async orchestration pipeline (`services/property_service.py`) -/

/-- LocEntry: one row of the `location_mapping` dict in `_detect_location`
(`services/property_service.py` lines 121-127). -/
structure LocEntry where
  scope : String
  keywords : List String
deriving Repr, DecidableEq

/-- locationMapping: the `location_mapping` table, in Python dict insertion
order (`services/property_service.py` lines 121-127). -/
def locationMapping : List LocEntry :=
  [ ⟨"Brisbane", ["brisbane", "queensland", "qld", "gold coast", "sunshine coast"]⟩,
    ⟨"Sydney", ["sydney", "nsw", "new south wales"]⟩,
    ⟨"Melbourne", ["melbourne", "victoria", "vic"]⟩,
    ⟨"Perth", ["perth", "western australia", "wa"]⟩,
    ⟨"Adelaide", ["adelaide", "south australia", "sa"]⟩ ]

/-- entryMatches e ql: Python `any(keyword in question_lower for keyword in
data['keywords'])` for one table entry. -/
def entryMatches (e : LocEntry) (ql : String) : Bool :=
  e.keywords.any (fun k => strHasSub ql k)

/-- findScope: the `for ... break` loop of `_detect_location`: the first
entry whose keyword set matches wins; otherwise the initial value
`'National'` survives. -/
def findScope : List LocEntry → String → String
  | [], _ => "National"
  | e :: rest, ql => if entryMatches e ql then e.scope else findScope rest ql

/-- detectScope embeds `PropertyAnalysisService._detect_location`
(`services/property_service.py` lines 119-134); the method returns
`{'scope': detected_scope}` and callers only read `'scope'`, so the scope
string itself is returned here.  The function is pure by construction. -/
def detectScope (question : String) : String :=
  findScope locationMapping (strToLower question)

/-- LLMReply: the dict contract of the async draft's LLM service calls.
The companion `LLMService` class for this draft is absent from the
repository snapshot; the caller (`analyze_property_question`) reads exactly
the keys `success`, `error`, `answer` and `get('confidence', 0.90)`, which
matches the spec's LLMProvider contract `{success, text, tokens_used,
error?}` with the text key named `answer`. -/
structure LLMReply where
  success : Bool
  answer : String
  error : String
  confidence : Option ℚ

/-- SearchItem: one item of a web-search response
(`services/web_search_service.py` lines 60-67). -/
structure SearchItem where
  title : String
  snippet : String
  link : String

/-- SearchReply: the dict returned by `WebSearchService.search`. -/
structure SearchReply where
  success : Bool
  results : List SearchItem
  error : String

/-- Article: one RSS article dict as consumed by the async pipeline
(`services/property_service.py` lines 40-43 read `title`, `description`,
`link`). -/
structure Article where
  title : String
  description : String
  link : String

/-- Env packages the injected collaborators of the async
`PropertyAnalysisService` and their per-request behaviour.  Behaviour
functions return `Except String α`: `.error e` models the collaborator
call raising a Python exception with message `e`, `.ok` models a normal
return.  Availability flags mirror `rss_service is not None` /
`.is_available`, `llm_service.gemini_is_available`, and
`web_search_service is not None` / `.is_available`. -/
structure Env where
  rssPresent : Bool
  rssAvailable : Bool
  rssArticles : Except String (List Article)
  claudeReply : String → Except String LLMReply
  geminiAvailable : Bool
  geminiReply : String → Except String LLMReply
  webPresent : Bool
  webAvailable : Bool
  webReply : String → Except String SearchReply

/-- Call records one invocation of a collaborator method, in order, so that
call-count properties (budget gate, search skipping) can be stated. -/
inductive Call where
  | rss : String → Call
  | claude : String → Call
  | gemini : String → Call
  | web : String → Call
deriving Repr, DecidableEq

/-- isLlmCall selects the LLM-provider invocations of a trace. -/
def isLlmCall : Call → Bool
  | .claude _ => true
  | .gemini _ => true
  | _ => false

/-- isWebCall selects web-search invocations of a trace. -/
def isWebCall : Call → Bool
  | .web _ => true
  | _ => false

/-- isRssCall selects RSS invocations of a trace. -/
def isRssCall : Call → Bool
  | .rss _ => true
  | _ => false

/-- isGeminiCall selects Gemini invocations of a trace. -/
def isGeminiCall : Call → Bool
  | .gemini _ => true
  | _ => false

/-- PyVal: the value side of the returned Python dict. -/
inductive PyVal where
  | pbool : Bool → PyVal
  | pstr : String → PyVal
  | pnum : ℚ → PyVal
  | pnone : PyVal
deriving Repr, DecidableEq

/-- lookupKey: Python `d.get(k)` on the assoc-list model of a dict. -/
def lookupKey (d : List (String × PyVal)) (k : String) : Option PyVal :=
  match d.find? (fun p => p.fst = k) with
  | some p => some p.snd
  | none => none

/-- apologyMsg is the f-string assigned in the outer exception handler
(`services/property_service.py` line 106). -/
def apologyMsg (e : String) : String :=
  "I apologize, but I encountered an error during analysis: " ++ e ++ ". Please try again."

/-- nameErrorConfig: `str(e)` for the `NameError` raised by evaluating
`Config.…` in `services/property_service.py`, which never imports `Config`. -/
def nameErrorConfig : String :=
  "name \x27Config\x27 is not defined"

/-- packageDict builds the literal dict returned at
`services/property_service.py` lines 109-117; `question_type` is never
reassigned ("custom"), and `claude_result` / `gemini_result` are always
`None`. -/
def packageDict (success : Bool) (finalAnswer : String) (confidence : ℚ)
    (llmProvider : String) : List (String × PyVal) :=
  [ ("success", .pbool success),
    ("final_answer", .pstr finalAnswer),
    ("confidence", .pnum confidence),
    ("question_type", .pstr "custom"),
    ("llm_provider", .pstr llmProvider),
    ("claude_result", .pnone),
    ("gemini_result", .pnone) ]

/-- gatherRssContext embeds step 2 (`services/property_service.py` lines
35-50).  The inner `try` catches any exception from
`get_relevant_articles`.  When articles are non-empty, the context string
is built with `articles[:Config.RSS_TOP_N_ARTICLES_FOR_LLM]`; `Config` is
not imported in this module, so that expression raises `NameError`, which
the same inner handler catches before `rss_context` is reassigned.  Hence
`rss_context` keeps its initial value `""` on every path; the case split is
kept to mirror the source structure and the emitted collaborator call. -/
def gatherRssContext (env : Env) (scope : String) : String × List Call :=
  if env.rssPresent && env.rssAvailable then
    (match env.rssArticles with
     | .error _ => ""
     | .ok articles => if articles.isEmpty then "" else "",
     [Call.rss scope])
  else
    ("", [])

/-- braceChar is the character `\x7b`. -/
def braceChar : Char := Char.ofNat 123

/-- closeBraceChar is the character `\x7d`. -/
def closeBraceChar : Char := Char.ofNat 125

/-- dropTrailAfterBrace cs: drop everything after the LAST closing brace of
`cs` (keeping the brace), or `none` when there is no closing brace. -/
def dropTrailAfterBrace (cs : List Char) : Option (List Char) :=
  match cs with
  | [] => none
  | c :: rest =>
    match dropTrailAfterBrace rest with
    | some tail => some (c :: tail)
    | none => if c = closeBraceChar then some [c] else none

/-- sliceFromBrace cs: the sub-list starting at the first opening brace,
or `none` when there is none. -/
def sliceFromBrace : List Char → Option (List Char)
  | [] => none
  | c :: rest => if c = braceChar then some (c :: rest) else sliceFromBrace rest

/-- sliceBraces locates the first `\x7b` and the last `\x7d` of the raw LLM
text and returns the enclosed slice, the tolerant-parse strategy of the
spec (and of `llm_integration.py` lines 78-80). -/
def sliceBraces (s : String) : Option (List Char) :=
  match sliceFromBrace s.data with
  | none => none
  | some fromBrace => dropTrailAfterBrace fromBrace

/-- isJsonWs: JSON whitespace. -/
def isJsonWs (c : Char) : Bool :=
  c = ' ' || c = '\n' || c = '\t' || c = '\r'

/-- skipWs drops leading JSON whitespace. -/
def skipWs : List Char → List Char
  | [] => []
  | c :: rest => if isJsonWs c then skipWs rest else c :: rest

/-- parseJStr parses a double-quoted JSON string (no escape sequences, as
in the decision objects the spec describes) and returns it with the rest
of the input. -/
def parseJStr : List Char → Option (String × List Char)
  | [] => none
  | c :: rest =>
    if c = '\"' then
      let rec go : List Char → List Char → Option (String × List Char)
        | [], _ => none
        | d :: more, acc =>
          if d = '\"' then some (String.mk acc.reverse, more)
          else go more (d :: acc)
      go rest []
    else none

/-- parsePairs parses `"k" : "v"` pairs separated by commas up to the
closing brace of a flat JSON object.  `fuel` bounds recursion. -/
def parsePairs (fuel : Nat) (cs : List Char) (acc : List (String × String)) :
    Option (List (String × String)) :=
  match fuel with
  | 0 => none
  | fuel + 1 =>
    match parseJStr (skipWs cs) with
    | none => none
    | some (k, rest1) =>
      match skipWs rest1 with
      | ':' :: rest2 =>
        match parseJStr (skipWs rest2) with
        | none => none
        | some (v, rest3) =>
          match skipWs rest3 with
          | ',' :: rest4 => parsePairs fuel rest4 ((k, v) :: acc)
          | d :: rest4 =>
            if d = closeBraceChar && (skipWs rest4).isEmpty then
              some ((k, v) :: acc).reverse
            else none
          | [] => none
      | _ => none

/-- parseFlatObj parses one flat JSON object `{ "k": "v", ... }` occupying
the whole input. -/
def parseFlatObj (cs : List Char) : Option (List (String × String)) :=
  match skipWs cs with
  | c :: rest =>
    if c = braceChar then
      match skipWs rest with
      | d :: rest2 =>
        if d = closeBraceChar && (skipWs rest2).isEmpty then some []
        else parsePairs (cs.length + 1) (d :: rest2) []
      | [] => none
    else none
  | [] => none

/-- lookupStr: assoc lookup in the parsed object. -/
def lookupStr (l : List (String × String)) (k : String) : Option String :=
  match l.find? (fun p => p.fst = k) with
  | some p => some p.snd
  | none => none

/-- Modelled from the spec: `_check_for_search_necessity` is missing from
the repository snapshot (`services/property_service.py` is truncated before
its definition; only the call sites at lines 66-69 survive).  The spec
describes it as a tolerant parse: locate the first `\x7b` and the last
`\x7d` of the raw LLM text, attempt JSON decoding, and treat any failure,
any object without the expected `action` key, and the `analyze_directly`
action identically as "no search" — never invent a query.  The call site
reads `search_needed['query']` when truthy, so a successful `web_search`
decision carries the query string. -/
def checkForSearchNecessity (text : String) : Option String :=
  match sliceBraces text with
  | none => none
  | some slice =>
    match parseFlatObj slice with
    | none => none
    | some obj =>
      match lookupStr obj "action" with
      | some a =>
        if a = "web_search" then lookupStr obj "query" else none
      | none => none

/-- buildInitialLlmPrompt transcribes `_build_initial_llm_prompt`
(`services/property_service.py` lines 136-163).  The source file is
truncated inside this prompt literal (after the example JSON object), so
the transcription ends where the repository snapshot ends. -/
def buildInitialLlmPrompt (question scope rssContext : String) : String :=
  "You are an expert Australian property market analyst.\n" ++
  "The user has asked the following question about the " ++ scope ++
  " property market:\n\nUser Question: \"" ++ question ++ "\"\n\n" ++
  "Your task is to first:\n" ++
  "1.  **Determine if this question requires a specific, up-to-date factual number (e.g., an average price, current rental yield, specific market statistic).**\n" ++
  "2.  If it does, suggest a precise search query that could find this information.\n" ++
  "3.  If it does not, proceed with analysis based on general knowledge and provided context.\n\n" ++
  "Context provided:\n" ++
  "- Location Scope: " ++ scope ++ "\n" ++
  "- Relevant RSS News/Trends: " ++
  (if rssContext = "" then "No relevant RSS articles found." else rssContext) ++ "\n\n" ++
  "Based on the question and context, please indicate if a web search is required to find a specific number.\n" ++
  "If a search is required, respond ONLY with a JSON object like this:\n" ++
  "\x60\x60\x60json\n\x7b\n    \"action\": \"web_search\",\n    \"query\": \"precise search query for the factual number\"\n\x7d"

/-- Modelled from the spec: `_build_final_llm_prompt` is missing from the
repository snapshot (the truncation of `services/property_service.py`
removed it; only the call site at line 86 survives).  Per spec section 4.4
step 5 it combines the original question, the location focus, the RSS
snippets and the web-search snippets into a single prompt, omitting each
context section when empty. -/
def buildFinalLlmPrompt (question scope rssContext searchContext : String) : String :=
  "You are an expert Australian property market analyst.\n" ++
  "User Question: \"" ++ question ++ "\"\n" ++
  "Location Focus: " ++ scope ++ "\n" ++
  (if rssContext = "" then "" else rssContext ++ "\n") ++
  (if searchContext = "" then "" else searchContext ++ "\n") ++
  "Please provide a comprehensive answer using all of the context above."

/-- WebOutcome: result of the conditional web-search stage; `.raised e`
means an exception escaped to the outer handler of
`analyze_property_question`, `.ctx s` means execution continues with
`search_results_context = s`. -/
inductive WebOutcome where
  | ctx : String → WebOutcome
  | raised : String → WebOutcome

/-- webStep embeds the conditional web search (`services/property_service.py`
lines 63-82).  The search call is not wrapped in an inner `try`, so a
raising collaborator propagates (`.raised`).  When the search succeeds the
source builds `search_results_context` using
`Config.GOOGLE_CSE_TOP_N_RESULTS`; `Config` is not imported in this module,
so that expression raises `NameError` which also escapes to the outer
handler.  A failed (non-raising) search logs and continues with empty
context, and so does an unavailable or absent web-search service. -/
def webStep (env : Env) (searchNeeded : Option String) : WebOutcome × List Call :=
  match searchNeeded with
  | none => (.ctx "", [])
  | some query =>
    if env.webPresent && env.webAvailable then
      match env.webReply query with
      | .error e => (.raised e, [Call.web query])
      | .ok sr =>
        if sr.success then (.raised nameErrorConfig, [Call.web query])
        else (.ctx "", [Call.web query])
    else
      (.ctx "", [])

/-- synthStep embeds the final synthesis call (`services/property_service.py`
lines 89-102) together with the outer handler's treatment of its failures.
It returns `(success, final_answer, confidence, llm_provider)` and the
trace.  Provider bookkeeping follows the source order: `llm_provider` is
reassigned only after the awaited call returns, so a raising Gemini call
leaves the provider at the value `"claude"` set by the decision step, while
a returned-but-unsuccessful Gemini reply has already set `"gemini"`. -/
def synthStep (env : Env) (finalPrompt : String) : (Bool × String × ℚ × String) × List Call :=
  if env.geminiAvailable then
    match env.geminiReply finalPrompt with
    | .error e => ((false, apologyMsg e, 85/100, "claude"), [Call.gemini finalPrompt])
    | .ok r =>
      if r.success then
        ((true, r.answer, r.confidence.getD (90/100), "gemini"), [Call.gemini finalPrompt])
      else
        ((false, apologyMsg r.error, 85/100, "gemini"), [Call.gemini finalPrompt])
  else
    match env.claudeReply finalPrompt with
    | .error e => ((false, apologyMsg e, 85/100, "claude"), [Call.claude finalPrompt])
    | .ok r =>
      if r.success then
        ((true, r.answer, r.confidence.getD (90/100), "claude"), [Call.claude finalPrompt])
      else
        ((false, apologyMsg r.error, 85/100, "claude"), [Call.claude finalPrompt])

/-- analyzeAfterRss embeds steps 3-6 of `analyze_property_question`
(`services/property_service.py` lines 52-117): the Claude decision call
(unconditional, line 57), the tolerant search decision, the conditional
web search, the synthesis call with reversed provider preference, and the
final dict; every raise is routed through the outer handler, which yields
the apology dict with the bookkeeping values current at the raise site. -/
def analyzeAfterRss (env : Env) (question scope rssContext : String) :
    List (String × PyVal) × List Call :=
  let ip := buildInitialLlmPrompt question scope rssContext
  match env.claudeReply ip with
  | .error e =>
    -- the raise happens before `llm_provider = "claude"` (line 58) runs
    (packageDict false (apologyMsg e) (85/100) "unknown", [Call.claude ip])
  | .ok r1 =>
    if r1.success then
      match webStep env (checkForSearchNecessity r1.answer) with
      | (.raised e, tw) =>
        (packageDict false (apologyMsg e) (85/100) "claude", Call.claude ip :: tw)
      | (.ctx searchContext, tw) =>
        let fp := buildFinalLlmPrompt question scope rssContext searchContext
        let step := synthStep env fp
        (packageDict step.1.1 step.1.2.1 step.1.2.2.1 step.1.2.2.2,
         Call.claude ip :: tw ++ step.2)
    else
      (packageDict false (apologyMsg r1.error) (85/100) "claude", [Call.claude ip])

/-- analyzeAsync embeds `PropertyAnalysisService.analyze_property_question`
(`services/property_service.py` lines 18-117) over the collaborator
environment.  The second component is the ordered trace of collaborator
invocations made during the request. -/
def analyzeAsync (env : Env) (question : String) : List (String × PyVal) × List Call :=
  let scope := detectScope question
  let rss := gatherRssContext env scope
  let rest := analyzeAfterRss env question scope rss.1
  (rest.1, rss.2 ++ rest.2)

/-! ## Persistence embedding (`enhanced_database.py`) -/

/-- StoredQuery is the persisted query record.  Modelled from the spec:
the SQLAlchemy model `Query` that `enhanced_database.py` imports from
`models.py` is absent from the repository snapshot (`models.py` defines
`PropertyQuery` instead, without the token column), so the field list
follows the spec's `QueryRecord`: {id, question, answer, question_type,
processing_time, success, created_at, location_detected, llm_provider,
confidence_score, user_id, tokens_used}, with `tokens_used` matching the
`total_tokens_used` column used throughout `enhanced_database.py`. -/
structure StoredQuery where
  id : Nat
  question : String
  answer : String
  questionType : String
  processingTime : ℚ
  success : Bool
  createdAt : String
  locationDetected : String
  llmProvider : String
  confidenceScore : ℚ
  userId : String
  tokensUsed : Nat
deriving Repr, DecidableEq

/-- userTokenSum embeds the `total_user_tokens` computation of
`PropertyDatabase.get_user_stats` (`enhanced_database.py` lines 222-225):
`SUM(total_tokens_used)` over the records filtered by `user_id`, with
`NULL` (no rows) read back as 0 — on a list model the plain sum. -/
def userTokenSum (db : List StoredQuery) (userId : String) : Nat :=
  ((db.filter (fun r => r.userId = userId)).map (fun r => r.tokensUsed)).sum

/-- deleteQuery embeds `PropertyDatabase.delete_query`
(`enhanced_database.py` lines 347-368).  `session.query(...).filter_by(id=
query_id).first()` is `find?`; when found, `session.delete` plus `commit`
removes exactly that row (`eraseP` removes the first match).  `commitOk =
false` models the commit raising: the handler rolls back (store unchanged)
and re-raises, modelled as `.error`.  When no row matches, the method
returns `False` and the store is untouched. -/
def deleteQuery (db : List StoredQuery) (queryId : Nat) (commitOk : Bool) :
    Except String Bool × List StoredQuery :=
  match db.find? (fun r => r.id = queryId) with
  | some _ =>
    if commitOk then
      (.ok true, db.eraseP (fun r => r.id = queryId))
    else
      (.error "database error during delete", db)
  | none => (.ok false, db)

end PropertyIntel

namespace PropertyIntelV3

/-! ## The synchronous v3 pipeline
(`curam-ai-python-v3/services/property_service.py` with
`services/llm_service.py` and the v2 `config.py`) -/

open PropertyIntel (strHasSub joinLines)

/-- LocationInfo is the `{'scope': ..., 'focus': ...}` dict of
`_detect_location_scope`. -/
structure LocationInfo where
  scope : String
  focus : String
deriving Repr, DecidableEq

/-- brisbaneKeywords: the extended Brisbane list of `_detect_location_scope`
(`curam-ai-python-v3/services/property_service.py` lines 92-93). -/
def brisbaneKeywords : List String :=
  ["brisbane", "queensland", "qld", "gold coast", "sunshine coast",
   "ipswich", "logan", "caboolture", "toowoomba", "redland", "moreton bay"]

/-- sydneyKeywords (line 96). -/
def sydneyKeywords : List String :=
  ["sydney", "nsw", "new south wales", "parramatta", "penrith"]

/-- melbourneKeywords (line 97). -/
def melbourneKeywords : List String :=
  ["melbourne", "victoria", "vic", "geelong", "ballarat"]

/-- perthKeywords (line 98). -/
def perthKeywords : List String :=
  ["perth", "western australia", "wa", "fremantle", "joondalup"]

/-- adelaideKeywords (line 99). -/
def adelaideKeywords : List String :=
  ["adelaide", "south australia", "sa"]

/-- anyKw ql kws: Python `any(keyword in question_lower for keyword in kws)`. -/
def anyKw (ql : String) (kws : List String) : Bool :=
  kws.any (fun k => strHasSub ql k)

/-- detectLocationScope embeds `_detect_location_scope`
(`curam-ai-python-v3/services/property_service.py` lines 85-116): an
`if/elif` chain over the five keyword lists, defaulting to the national
scope. -/
def detectLocationScope (question : String) : LocationInfo :=
  let ql := PropertyIntel.strToLower question
  if anyKw ql brisbaneKeywords then ⟨"brisbane", "Brisbane and Queensland"⟩
  else if anyKw ql sydneyKeywords then ⟨"sydney", "Sydney and New South Wales"⟩
  else if anyKw ql melbourneKeywords then ⟨"melbourne", "Melbourne and Victoria"⟩
  else if anyKw ql perthKeywords then ⟨"perth", "Perth and Western Australia"⟩
  else if anyKw ql adelaideKeywords then ⟨"adelaide", "Adelaide and South Australia"⟩
  else ⟨"national", "Australian national property market"⟩

/-- presetQuestions transcribes `Config.PRESET_QUESTIONS`
(`curam-ai-python-v2/config.py` lines 69-78), the config that defines the
constant used by `_determine_question_type`. -/
def presetQuestions : List String :=
  [ "What are the current trends in the Australian property market?",
    "Which Australian cities are showing the strongest property growth?",
    "What major infrastructure projects are affecting property values across Australia?",
    "Which suburbs across Australia are trending in property investment?",
    "What regulatory changes are impacting the Australian property market?",
    "What are the latest property development approvals across major Australian cities?",
    "Which Australian property markets offer the best investment opportunities?",
    "What are the emerging property hotspots in Australia?" ]

/-- determineQuestionType embeds `_determine_question_type` (line 83). -/
def determineQuestionType (question : String) : String :=
  if question ∈ presetQuestions then "preset" else "custom"

/-- NewsArticle: an article dict as produced by the RSS collaborator and
consumed by `_get_real_property_data_sources`; the optional
`brisbane_relevant` / `investment_relevant` keys are read with falsy
defaults, so they appear here as plain Booleans. -/
structure NewsArticle where
  source : String
  title : String
  summary : String
  link : String
  published : String
  brisbaneRelevant : Bool
  investmentRelevant : Bool
deriving Repr, DecidableEq

/-- DataSource: the converted data-source dict
(`curam-ai-python-v3/services/property_service.py` lines 139-151). -/
structure DataSource where
  source : String
  title : String
  summary : String
  link : String
  published : String
  relevance : String
  investmentFocus : Bool
  realData : Bool
deriving Repr, DecidableEq

/-- Env packages the collaborators of the v3 pipeline.  `claudeAvailable` /
`geminiAvailable` mirror `claude_client is not None` / `gemini_model is not
None` in `services/llm_service.py`; the generation functions return the
analysis text or model a raised exception.  `recentNews` is the behaviour
of `rss_service.get_recent_news(max_articles=6)`; `today` is
`datetime.now().strftime('%Y-%m-%d')` as read inside
`_build_enhanced_question`. -/
structure Env where
  claudeAvailable : Bool
  geminiAvailable : Bool
  workingClaudeModel : Option String
  workingGeminiModel : Option String
  claudeGen : String → Except String String
  geminiGen : String → Except String String
  rssPresent : Bool
  recentNews : Except String (List NewsArticle)
  today : String

/-- LLMResult: the dict returned by `analyze_with_claude_location` /
`analyze_with_gemini_location` (`services/llm_service.py` lines 133-139 on
success, `_error_response` lines 283-290 on failure).  Wall-clock
`processing_time` is modelled as 0. -/
structure LLMResult where
  success : Bool
  analysis : Option String
  modelUsed : Option String
  provider : Option String
  error : Option String
  processingTime : ℚ
deriving Repr, DecidableEq

/-- errorResponse embeds `LLMService._error_response`. -/
def errorResponse (msg : String) : LLMResult :=
  { success := false, analysis := none, modelUsed := none, provider := none,
    error := some msg, processingTime := 0 }

/-- createStrategicPromptWithLocation transcribes
`_create_strategic_prompt_with_location` (`services/llm_service.py` lines
174-203). -/
def createStrategicPromptWithLocation (enhancedQuestion : String) (loc : LocationInfo) : String :=
  if loc.scope = "national" then
    "You are an Australian property research specialist with expertise across all major Australian markets. Analyze this question and provide strategic insights:\n\n" ++
    enhancedQuestion ++
    "\n\nPlease provide:\n1. What type of property question this is (development, market, infrastructure, regulatory, etc.)\n2. Which Australian cities/regions are most relevant (Sydney, Melbourne, Brisbane, Perth, Adelaide)\n3. What data sources and market indicators would help answer this question\n4. Key insights to look for across Australian property markets\n5. How different markets might show varying trends or responses\n\nKeep your response strategic and focused on Australian property markets nationally, highlighting regional variations where relevant."
  else
    "You are an Australian property research specialist with deep expertise in " ++ loc.focus ++
    " within the broader Australian market context. Analyze this question:\n\n" ++
    enhancedQuestion ++
    "\n\nPlease provide:\n1. What type of property question this is (development, market, infrastructure, regulatory, etc.)\n2. Which specific areas within " ++ loc.focus ++
    " are most relevant\n3. How this relates to broader Australian property market trends\n4. What data sources would help answer this question\n5. Key insights to look for in the local and national context\n\nKeep your response strategic and focused on " ++
    loc.focus ++ " while considering Australian market dynamics."

/-- createComprehensivePromptWithLocation transcribes
`_create_comprehensive_prompt_with_location` (`services/llm_service.py`
lines 205-243).  `claudeContext` carries the Python value passed as
`claude_context` (`None` on a failed Claude stage); the `if claude_context`
test is Python truthiness, false for both `None` and `""`. -/
def createComprehensivePromptWithLocation (enhancedQuestion : String)
    (claudeContext : Option String) (loc : LocationInfo) : String :=
  let basePrompt :=
    if loc.scope = "national" then
      "You are an Australian property market analyst with comprehensive knowledge of all major Australian property markets. Provide a detailed analysis of this question:\n\n" ++
      enhancedQuestion ++
      "\n\nPlease provide a comprehensive Australian property market analysis that:\n- Covers major Australian cities (Sydney, Melbourne, Brisbane, Perth, Adelaide) as relevant\n- Discusses current national market trends and regional variations\n- Includes investment and development implications across different markets\n- Provides professional insights for Australian property industry professionals\n- References current market conditions and data where applicable\n\nFocus on delivering actionable information for Australian property professionals with national market perspective."
    else
      "You are an Australian property market analyst with specialized knowledge of " ++ loc.focus ++
      " and its position within the Australian property market. Provide a comprehensive analysis:\n\n" ++
      enhancedQuestion ++
      "\n\nPlease provide a detailed " ++ loc.focus ++
      " property market analysis that:\n- Focuses specifically on " ++ loc.focus ++
      " areas and suburbs\n- Connects local trends to broader Australian market dynamics\n- Includes investment and development implications for this region\n- Provides professional insights for property professionals in this market\n- References current market conditions and local data where applicable\n\nFocus on delivering actionable information for property professionals working in " ++
      loc.focus ++ "."
  if claudeContext.getD "" = "" then basePrompt
  else
    basePrompt ++ "\n\nStrategic Research Context: " ++ claudeContext.getD "" ++
    "\n\nBuild upon this strategic context to provide your comprehensive analysis."

/-- analyzeWithClaudeLocation embeds `LLMService.analyze_with_claude_location`
(`services/llm_service.py` lines 112-143): unavailable client short-circuits
to an error response without any call; a raised API exception is caught and
converted to an error response. -/
def analyzeWithClaudeLocation (env : Env) (enhancedQuestion : String)
    (loc : LocationInfo) : LLMResult :=
  if !env.claudeAvailable then errorResponse "Claude client not available"
  else
    let prompt := createStrategicPromptWithLocation enhancedQuestion loc
    let model := env.workingClaudeModel.getD "claude-3-5-sonnet-20241022"
    match env.claudeGen prompt with
    | .ok text =>
      { success := true, analysis := some text, modelUsed := some model,
        provider := some "claude", error := none, processingTime := 0 }
    | .error e => errorResponse ("Claude analysis failed: " ++ e)

/-- analyzeWithGeminiLocation embeds `LLMService.analyze_with_gemini_location`
(`services/llm_service.py` lines 145-172). -/
def analyzeWithGeminiLocation (env : Env) (enhancedQuestion : String)
    (claudeContext : Option String) (loc : LocationInfo) : LLMResult :=
  if !env.geminiAvailable then errorResponse "Gemini model not available"
  else
    let prompt := createComprehensivePromptWithLocation enhancedQuestion claudeContext loc
    let model := env.workingGeminiModel.getD "gemini-1.5-flash"
    match env.geminiGen prompt with
    | .ok text =>
      { success := true, analysis := some text, modelUsed := some model,
        provider := some "gemini", error := none, processingTime := 0 }
    | .error e => errorResponse ("Gemini analysis failed: " ++ e)

/-- convertArticle: the per-article conversion loop of
`_get_real_property_data_sources` (lines 140-151), with the Python
summary truncation `summary[:200] + "..." if len(summary) > 200`. -/
def convertArticle (a : NewsArticle) : DataSource :=
  { source := a.source, title := a.title,
    summary := if a.summary.length > 200 then a.summary.take 200 ++ "..." else a.summary,
    link := a.link, published := a.published,
    relevance := if a.brisbaneRelevant then "high" else "medium",
    investmentFocus := a.investmentRelevant,
    realData := true }

/-- shortBrisbaneKeywords: the five-keyword list re-declared inside
`_get_real_property_data_sources` and `_build_enhanced_question`
(lines 127, 175). -/
def shortBrisbaneKeywords : List String :=
  ["brisbane", "queensland", "qld", "gold coast", "sunshine coast"]

/-- getRealPropertyDataSources embeds `_get_real_property_data_sources`
(lines 118-158).  A Brisbane-focused question calls
`rss_service.get_brisbane_news`, a method the `RSSService` in
`services/rss_service.py` does not define; the resulting `AttributeError`
is caught by the method's own handler, giving `[]`.  Any raise from
`get_recent_news` is likewise caught.  An absent RSS service gives `[]`
directly. -/
def getRealPropertyDataSources (env : Env) (question : String) : List DataSource :=
  if !env.rssPresent then []
  else if anyKw (PropertyIntel.strToLower question) shortBrisbaneKeywords then []
  else
    match env.recentNews with
    | .ok articles => articles.map convertArticle
    | .error _ => []

/-- hasRealData embeds `_has_real_data` (lines 160-162). -/
def hasRealData (ds : List DataSource) : Bool :=
  decide (ds.length > 0) && ds.any (fun s => s.realData)

/-- sourceBlock: one iteration of the enhanced-question data loop
(lines 187-196), 1-indexed. -/
def sourceBlock (i : Nat) (s : DataSource) : String :=
  "\n" ++ toString i ++ ". " ++ s.title ++ " " ++
  (if s.investmentFocus then "💰" else "📊") ++ " " ++
  (if s.relevance = "high" then "🔥" else "📈") ++
  "\n   Source: " ++ s.source ++
  "\n   Published: " ++ s.published ++
  "\n   Summary: " ++ s.summary ++ "\n"

/-- sourceBlocks folds `sourceBlock` over the first sources with a running
index. -/
def sourceBlocks : Nat → List DataSource → String
  | _, [] => ""
  | i, s :: rest => sourceBlock i s ++ sourceBlocks (i + 1) rest

/-- buildEnhancedQuestion embeds `_build_enhanced_question` (lines
164-210). -/
def buildEnhancedQuestion (env : Env) (question : String) (ds : List DataSource) : String :=
  if ds.isEmpty || !hasRealData ds then
    "Analyze this Australian property question using general market knowledge:\n\n" ++
    question ++
    "\n\nNote: Provide comprehensive analysis based on current Australian property market understanding."
  else
    let locationContext :=
      if anyKw (PropertyIntel.strToLower question) shortBrisbaneKeywords then "Brisbane/Queensland property market"
      else "Australian property market"
    "Analyze this Australian property question using the following REAL current market data:\n\nQUESTION: " ++
    question ++
    "\n\nCURRENT " ++ PropertyIntel.strToUpper locationContext ++ " DATA (from RSS feeds on " ++ env.today ++ "):\n" ++
    sourceBlocks 1 (ds.take 4) ++
    "\n\nANALYSIS INSTRUCTIONS:\n- Use this REAL current " ++ locationContext ++
    " data in your analysis\n- Reference specific articles and developments mentioned above\n- Provide insights based on actual market conditions and investment implications\n- Focus on current trends and developments shown in the data\n- Give a comprehensive, professional analysis that demonstrates the value of real-time market intelligence\n- Prioritize investment-relevant insights and actionable information\n\nPlease provide a detailed analysis that incorporates these real market developments."

/-- brisbaneFallback transcribes the Brisbane narrative of
`_generate_fallback_answer` (lines 250-274). -/
def brisbaneFallback : String :=
  "Based on current Brisbane and Queensland property market understanding:\n\nThe Brisbane and Queensland property market continues to show strong fundamentals driven by interstate migration, infrastructure investment, and lifestyle factors. Key factors influencing current market conditions include Olympic preparations, Cross River Rail development, population growth from southern states, and evolving work-from-home trends.\n\n**Current Brisbane Market Overview:**\n- Strong demand in inner-city suburbs due to infrastructure improvements\n- Growth corridors along major transport routes showing consistent appreciation\n- Regional Queensland markets benefiting from lifestyle migration trends  \n- Development activity concentrated in transit-oriented locations\n- Rental markets showing strength due to interstate migration\n\n**Key Brisbane Investment Considerations:**\n- Infrastructure connectivity remains crucial for capital growth\n- Olympic Games 2032 infrastructure already influencing property values\n- Government policy settings supporting first home buyers and investors\n- Population growth supporting rental demand across greater Brisbane\n- Regional Queensland offering yield opportunities for investors\n\n**Investment Focus Areas:**\n- Cross River Rail corridor suburbs for future capital growth\n- Established inner-ring suburbs for rental yield stability\n- Growth areas in Logan, Ipswich, and Moreton Bay for affordability\n- Gold Coast and Sunshine Coast for lifestyle investment opportunities\n\n*Note: This analysis is based on general Brisbane market knowledge. Our system typically provides enhanced analysis using real-time RSS feeds from Smart Property Investment, Brisbane Times, and other industry sources when available.*"

/-- nationalFallback transcribes the national narrative (lines 277-301). -/
def nationalFallback : String :=
  "Based on current Australian property market understanding:\n\nThe Australian property market continues to show diverse performance across major metropolitan and regional areas. Key factors influencing current market conditions include interest rate environment, population growth patterns, infrastructure development, and government policy settings across all major cities.\n\n**Current National Market Overview:**\n- Sydney and Melbourne showing selective growth in premium locations\n- Brisbane benefiting from interstate migration and infrastructure investment\n- Perth experiencing resource sector-driven demand\n- Adelaide showing steady growth with affordability advantages\n- Regional markets across all states benefiting from lifestyle migration trends\n\n**Key National Investment Considerations:**\n- Market conditions vary significantly by location and property type across all cities\n- Infrastructure connectivity remains a key value driver nationally\n- Government policy and regulatory changes continue to shape market dynamics\n- Economic fundamentals support continued investment activity across major centers\n- Regional markets offering yield opportunities as city prices moderate\n\n**Investment Opportunities Across Major Cities:**\n- Growth corridors in Sydney, Melbourne, Brisbane, Perth, and Adelaide for capital appreciation\n- Regional centers with strong economic fundamentals in all states\n- Transit-oriented developments for long-term growth across major cities\n- Established suburbs for rental yield stability in all markets\n\n*Note: This analysis is based on general Australian market knowledge. Our system typically provides enhanced analysis using real-time RSS feeds from Smart Property Investment, Your Investment Property, and other industry sources when available.*"

/-- cityFallback transcribes the city-specific narrative (lines 304-321),
parameterised by `location_info['focus']`. -/
def cityFallback (cityFocus : String) : String :=
  "Based on current " ++ cityFocus ++
  " property market understanding:\n\nThe " ++ cityFocus ++
  " property market shows unique characteristics within the broader Australian property landscape. Local factors including infrastructure development, population growth, economic conditions, and government policy settings influence market dynamics.\n\n**Current Market Considerations:**\n- Local market conditions vary by suburb and property type\n- Infrastructure connectivity important for capital growth\n- Economic fundamentals support continued market activity\n- Regional variations within the broader market area\n\n**Investment Opportunities:**\n- Growth areas with infrastructure development\n- Established suburbs for rental yield\n- Transit-oriented locations for long-term appreciation\n\n*Note: This analysis is based on general market knowledge. Our system typically provides enhanced analysis using real-time RSS feeds from property industry sources when available.*"

/-- generateFallbackAnswer embeds `_generate_fallback_answer` (lines
244-321): it re-detects the scope and keys the static narrative on it. -/
def generateFallbackAnswer (question : String) : String :=
  let loc := detectLocationScope question
  if loc.scope = "brisbane" then brisbaneFallback
  else if loc.scope = "national" then nationalFallback
  else cityFallback loc.focus

/-- sourceLine: one line of the data-sources appendix of
`_format_comprehensive_answer` (lines 233-236), 1-indexed. -/
def sourceLine (i : Nat) (s : DataSource) : String :=
  toString i ++ ". **" ++ s.source ++ "** " ++
  (if s.relevance = "high" then "🔥" else "📊") ++
  (if s.investmentFocus then " 💰" else "") ++
  ": " ++ s.title

/-- sourceLines folds `sourceLine` with a running 1-based index. -/
def sourceLines : Nat → List DataSource → List String
  | _, [] => []
  | i, s :: rest => sourceLine i s :: sourceLines (i + 1) rest

/-- formatComprehensiveAnswer embeds `_format_comprehensive_answer` (lines
212-242): the Gemini analysis when it succeeded, else the Claude analysis,
else the fallback narrative; followed by the data-sources appendix when
real data was gathered. -/
def formatComprehensiveAnswer (question : String) (claudeResult geminiResult : LLMResult)
    (ds : List DataSource) (hasReal : Bool) : String :=
  let mainPart :=
    if geminiResult.success then geminiResult.analysis.getD ""
    else if claudeResult.success then claudeResult.analysis.getD ""
    else generateFallbackAnswer question
  let parts :=
    if hasReal && !ds.isEmpty then
      [mainPart, "", "### Current Market Data Sources", ""] ++
      sourceLines 1 (ds.take 3) ++
      ["", "---", "*Analysis based on real-time RSS data from Australian property investment industry sources*"]
    else
      [mainPart]
  joinLines parts

/-- V3Result models the dict returned by the v3
`analyze_property_question`; fields present only on one branch are
`Option`s.  Only the fields the claims consult are carried, plus the
bookkeeping needed to show the success branch is taken. -/
structure V3Result where
  success : Bool
  questionType : Option String
  finalAnswer : String
  locationDetected : Option String
  error : Option String
deriving Repr, DecidableEq

/-- analyze embeds the v3 `PropertyAnalysisService.analyze_property_question`
(`curam-ai-python-v3/services/property_service.py` lines 23-79).  Every
collaborator raise is absorbed by an inner handler (`services/llm_service.py`
catches API errors; `_get_real_property_data_sources` catches RSS errors),
so the outer `except` branch of the source is unreachable in this model and
the success branch is always taken. -/
def analyze (env : Env) (question : String) : V3Result :=
  let questionType := determineQuestionType question
  let locationInfo := detectLocationScope question
  let dataSources := getRealPropertyDataSources env question
  let enhancedQuestion := buildEnhancedQuestion env question dataSources
  let claudeResult := analyzeWithClaudeLocation env enhancedQuestion locationInfo
  let geminiResult :=
    analyzeWithGeminiLocation env enhancedQuestion claudeResult.analysis locationInfo
  let finalAnswer :=
    formatComprehensiveAnswer question claudeResult geminiResult dataSources
      (!dataSources.isEmpty)
  { success := true, questionType := some questionType, finalAnswer := finalAnswer,
    locationDetected := some locationInfo.scope, error := none }

end PropertyIntelV3

namespace PropertyIntel

/-! ## Concrete fixtures used by witnesses and counterexamples -/

/-- okReplyWith wraps a successful LLM reply dict. -/
def okReplyWith (s : String) : LLMReply :=
  { success := true, answer := s, error := "", confidence := none }

/-- failReplyWith wraps an unsuccessful LLM reply dict (the shape the
missing companion service returns when its client is not configured). -/
def failReplyWith (e : String) : LLMReply :=
  { success := false, answer := "", error := e, confidence := none }

/-- qTrends is a concrete location-free question. -/
def qTrends : String := "What are current property trends?"

/-- envBoth: both providers healthy, no RSS, web search configured; the
decision reply is plain prose (no JSON object). -/
def envBoth : Env :=
  { rssPresent := false, rssAvailable := false, rssArticles := .ok []
    , claudeReply := fun _ => .ok (okReplyWith "This can be analyzed directly from general knowledge.")
    , geminiAvailable := true
    , geminiReply := fun _ => .ok (okReplyWith "Final answer text.")
    , webPresent := true, webAvailable := true
    , webReply := fun _ => .ok { success := true, results := [], error := "" } }

/-- envNoClaude: the Claude binding is unavailable (its call short-circuits
to a failure dict without a network call), Gemini fully healthy. -/
def envNoClaude : Env :=
  { envBoth with claudeReply := fun _ => .ok (failReplyWith "Claude client not available") }

/-- envRssRaises: as envBoth but with an RSS service present whose fetch
raises. -/
def envRssRaises : Env :=
  { envBoth with rssPresent := true, rssAvailable := true, rssArticles := .error "feed timeout" }

/-- demoRecord1: a stored query of user sarah_buyer with a large token
count. -/
def demoRecord1 : StoredQuery :=
  { id := 1, question := qTrends, answer := "answer one", questionType := "custom",
    processingTime := 2, success := true, createdAt := "2026-10-01T10:00:00",
    locationDetected := "National", llmProvider := "gemini", confidenceScore := 9/10,
    userId := "sarah_buyer", tokensUsed := 70000 }

/-- demoRecord2: a second sarah_buyer record. -/
def demoRecord2 : StoredQuery :=
  { demoRecord1 with id := 2, answer := "answer two", tokensUsed := 50000 }

/-- demoRecord3: a record of a different user. -/
def demoRecord3 : StoredQuery :=
  { demoRecord1 with id := 3, answer := "answer three", userId := "michael_investor", tokensUsed := 1200 }

/-- demoDb: a concrete store. -/
def demoDb : List StoredQuery := [demoRecord1, demoRecord2, demoRecord3]

end PropertyIntel

namespace PropertyIntelV3

/-- newsArt: one concrete RSS article. -/
def newsArt : NewsArticle :=
  { source := "Smart Property Investment", title := "Rates fall",
    summary := "Summary text", link := "http://example.com/a",
    published := "2026-10-01", brisbaneRelevant := false, investmentRelevant := true }

/-- env3NoLLM: neither LLM provider available, no RSS service. -/
def env3NoLLM : Env :=
  { claudeAvailable := false, geminiAvailable := false
    , workingClaudeModel := none, workingGeminiModel := none
    , claudeGen := fun _ => .error "unreachable", geminiGen := fun _ => .error "unreachable"
    , rssPresent := false, recentNews := .ok [], today := "2026-10-12" }

/-- env3NoLLMRss: neither LLM provider available, but the RSS service
returns one article. -/
def env3NoLLMRss : Env :=
  { env3NoLLM with rssPresent := true, recentNews := .ok [newsArt] }

end PropertyIntelV3

namespace PropertyIntel

/-! ## Helper lemmas -/

/-- listStarts_self: every list starts with itself. -/
theorem listStarts_self (l : List Char) : listStarts l l = true := by
  induction l with
  | nil => rfl
  | cons h t ih => simp [listStarts, ih]

/-- listStarts_append: a concatenation starts with its left part. -/
theorem listStarts_append (l t : List Char) : listStarts (l ++ t) l = true := by
  induction l generalizing t with
  | nil => cases t <;> rfl
  | cons h rest ih => simp [listStarts, ih]

/-- strStarts_append_self: `a ++ b` starts with `a`. -/
theorem strStarts_append_self (a b : String) : strStarts (a ++ b) a = true := by
  unfold strStarts
  rw [String.data_append]
  exact listStarts_append a.data b.data

/-- strStarts_self: every string starts with itself. -/
theorem strStarts_self (a : String) : strStarts a a = true :=
  listStarts_self a.data

/-- findScope_eq_of_none: when no table entry matches, the initial
value `'National'` survives the loop. -/
theorem findScope_eq_of_none (l : List LocEntry) (ql : String)
    (h : ∀ e ∈ l, entryMatches e ql = false) : findScope l ql = "National" := by
  induction l with
  | nil => rfl
  | cons e rest ih =>
    have he := h e (List.mem_cons_self e rest)
    simp only [findScope, he, Bool.false_eq_true, if_false]
    exact ih (fun x hx => h x (List.mem_cons_of_mem e hx))

/-- findScope_eq_of_match: the first matching entry (all earlier entries
fail) determines the returned scope. -/
theorem findScope_eq_of_match (l : List LocEntry) (ql : String) :
    ∀ (n : Nat) (h : n < l.length),
      entryMatches (l.get ⟨n, h⟩) ql = true →
      (∀ (m : Nat) (hm : m < n), entryMatches (l.get ⟨m, Nat.lt_trans hm h⟩) ql = false) →
      findScope l ql = (l.get ⟨n, h⟩).scope := by
  induction l with
  | nil => intro n h; exact absurd h (Nat.not_lt_zero n)
  | cons e rest ih =>
    intro n h hmatch hprev
    match n with
    | 0 =>
      simp only [List.get] at hmatch ⊢
      simp [findScope, hmatch]
    | Nat.succ k =>
      have h0 : entryMatches e ql = false := hprev 0 (Nat.succ_pos k)
      simp only [List.get] at hmatch ⊢
      simp only [findScope, h0, Bool.false_eq_true, if_false]
      exact ih k (Nat.lt_of_succ_lt_succ h) hmatch
        (fun m hm => hprev (m + 1) (Nat.succ_lt_succ hm))

end PropertyIntel

namespace PropertyIntel

/-- packageDict_keys: the literal key list of the returned dict. -/
theorem packageDict_keys (s : Bool) (a : String) (c : ℚ) (p : String) :
    (packageDict s a c p).map Prod.fst =
      ["success", "final_answer", "confidence", "question_type",
       "llm_provider", "claude_result", "gemini_result"] := rfl

/-- lookupKey_success on a packaged dict. -/
theorem lookupKey_success (s : Bool) (a : String) (c : ℚ) (p : String) :
    lookupKey (packageDict s a c p) "success" = some (.pbool s) := rfl

/-- lookupKey_finalAnswer on a packaged dict. -/
theorem lookupKey_finalAnswer (s : Bool) (a : String) (c : ℚ) (p : String) :
    lookupKey (packageDict s a c p) "final_answer" = some (.pstr a) := rfl

/-- lookupKey_provider on a packaged dict. -/
theorem lookupKey_provider (s : Bool) (a : String) (c : ℚ) (p : String) :
    lookupKey (packageDict s a c p) "llm_provider" = some (.pstr p) := rfl

/-- lookupKey_tokenUsage: the packaged dict has no `token_usage` key. -/
theorem lookupKey_tokenUsage (s : Bool) (a : String) (c : ℚ) (p : String) :
    lookupKey (packageDict s a c p) "token_usage" = none := rfl

/-- gatherRssContext_ctx: the RSS stage always yields the empty context
(failures are swallowed by the inner handler, and the context-building
expression itself raises a caught `NameError`). -/
theorem gatherRssContext_ctx (env : Env) (s : String) :
    (gatherRssContext env s).1 = "" := by
  unfold gatherRssContext
  cases h : (env.rssPresent && env.rssAvailable) with
  | false => simp [h]
  | true =>
    simp only [h, if_true]
    cases env.rssArticles with
    | error e => rfl
    | ok l => cases l <;> rfl

/-- gatherRssContext_trace: the RSS stage emits at most the one RSS call
and nothing else. -/
theorem gatherRssContext_trace (env : Env) (s : String) :
    (gatherRssContext env s).2 = [] ∨ (gatherRssContext env s).2 = [Call.rss s] := by
  unfold gatherRssContext
  cases h : (env.rssPresent && env.rssAvailable) with
  | false => left; simp [h]
  | true =>
    right
    simp only [h, if_true]

/-- synthStep_cases: the synthesis step makes exactly one LLM call, to
Gemini when `gemini_is_available` and to Claude otherwise; failure always
yields the apology message, success attributes the provider that answered. -/
theorem synthStep_cases (env : Env) (fp : String) :
    ∃ sb a cf p, synthStep env fp =
      ((sb, a, cf, p), [if env.geminiAvailable then Call.gemini fp else Call.claude fp]) ∧
      (sb = false → ∃ e, a = apologyMsg e) ∧
      (sb = true → p = (if env.geminiAvailable then "gemini" else "claude")) := by
  unfold synthStep
  cases hg : env.geminiAvailable with
  | true =>
    simp only [if_true]
    cases hr : env.geminiReply fp with
    | error e => exact ⟨false, apologyMsg e, 85/100, "claude", rfl, fun _ => ⟨e, rfl⟩, by simp⟩
    | ok r =>
      cases hs : r.success with
      | true =>
        exact ⟨true, r.answer, r.confidence.getD (90/100), "gemini", by simp [hs], by simp, fun _ => rfl⟩
      | false =>
        exact ⟨false, apologyMsg r.error, 85/100, "gemini", by simp [hs], fun _ => ⟨r.error, rfl⟩, by simp⟩
  | false =>
    simp only [Bool.false_eq_true, if_false]
    cases hr : env.claudeReply fp with
    | error e => exact ⟨false, apologyMsg e, 85/100, "claude", rfl, fun _ => ⟨e, rfl⟩, by simp⟩
    | ok r =>
      cases hs : r.success with
      | true =>
        exact ⟨true, r.answer, r.confidence.getD (90/100), "claude", by simp [hs], by simp, fun _ => rfl⟩
      | false =>
        exact ⟨false, apologyMsg r.error, 85/100, "claude", by simp [hs], fun _ => ⟨r.error, rfl⟩, by simp⟩

end PropertyIntel

namespace PropertyIntel

/-- webStep_cases: the conditional search stage either raises (web failure
or the caught-less `NameError` on success) or continues with an empty
search context; it emits at most one call, a web call. -/
theorem webStep_cases (env : Env) (sn : Option String) :
    ∃ tw, ((∃ e, webStep env sn = (.raised e, tw)) ∨ webStep env sn = (.ctx "", tw)) ∧
      (tw = [] ∨ ∃ qq, tw = [Call.web qq]) := by
  unfold webStep
  cases sn with
  | none => exact ⟨[], Or.inr rfl, Or.inl rfl⟩
  | some query =>
    cases hwp : (env.webPresent && env.webAvailable) with
    | false =>
      simp only [hwp, Bool.false_eq_true, if_false]
      exact ⟨[], Or.inr rfl, Or.inl rfl⟩
    | true =>
      simp only [hwp, if_true]
      cases hr : env.webReply query with
      | error e => exact ⟨[Call.web query], Or.inl ⟨e, rfl⟩, Or.inr ⟨query, rfl⟩⟩
      | ok sr =>
        cases hs : sr.success with
        | true =>
          simp only [hs, if_true]
          exact ⟨[Call.web query], Or.inl ⟨nameErrorConfig, rfl⟩, Or.inr ⟨query, rfl⟩⟩
        | false =>
          simp only [hs, Bool.false_eq_true, if_false]
          exact ⟨[Call.web query], Or.inr rfl, Or.inr ⟨query, rfl⟩⟩

/-- analyzeAfterRss_cases: whatever the collaborators do, the post-RSS
pipeline returns a packaged dict whose trace starts with the unconditional
Claude decision call; the tail contains no RSS calls; a failed request
always carries the apology text; a successful one attributes the reversed
provider preference. -/
theorem analyzeAfterRss_cases (env : Env) (q s c : String) :
    ∃ (sb : Bool) (a : String) (cf : ℚ) (p : String) (t : List Call),
      analyzeAfterRss env q s c =
        (packageDict sb a cf p, Call.claude (buildInitialLlmPrompt q s c) :: t) ∧
      (∀ x ∈ t, isRssCall x = false) ∧
      (sb = false → ∃ e, a = apologyMsg e) ∧
      (sb = true → p = (if env.geminiAvailable then "gemini" else "claude")) := by
  unfold analyzeAfterRss
  dsimp only
  cases hr : env.claudeReply (buildInitialLlmPrompt q s c) with
  | error e =>
    exact ⟨false, apologyMsg e, 85/100, "unknown", [], rfl, by simp, fun _ => ⟨e, rfl⟩, by simp⟩
  | ok r1 =>
    cases hs : r1.success with
    | false =>
      simp only [hs, Bool.false_eq_true, if_false]
      exact ⟨false, apologyMsg r1.error, 85/100, "claude", [], rfl, by simp,
        fun _ => ⟨r1.error, rfl⟩, by simp⟩
    | true =>
      simp only [hs, if_true]
      obtain ⟨tw, hw, htw⟩ := webStep_cases env (checkForSearchNecessity r1.answer)
      have htw_no_rss : ∀ x ∈ tw, isRssCall x = false := by
        rcases htw with h | ⟨qq, h⟩ <;> subst h <;> simp [isRssCall]
      rcases hw with ⟨e, hw⟩ | hw
      · rw [hw]
        exact ⟨false, apologyMsg e, 85/100, "claude", tw, rfl, htw_no_rss,
          fun _ => ⟨e, rfl⟩, by simp⟩
      · rw [hw]
        obtain ⟨sb, a, cf, p, hsynth, hfail, hsucc⟩ :=
          synthStep_cases env (buildFinalLlmPrompt q s c "")
        refine ⟨sb, a, cf, p,
          tw ++ [if env.geminiAvailable then Call.gemini (buildFinalLlmPrompt q s c "")
                 else Call.claude (buildFinalLlmPrompt q s c "")], ?_, ?_, hfail, hsucc⟩
        · simp only [hsynth, List.cons_append]
        · intro x hx
          rcases List.mem_append.mp hx with hx | hx
          · exact htw_no_rss x hx
          · rcases List.mem_singleton.mp hx with rfl
            cases env.geminiAvailable <;> simp [isRssCall]

/-- analyzeAsync_eq: the full request equals the RSS stage (whose context
is always empty) followed by the rest of the pipeline. -/
theorem analyzeAsync_eq (env : Env) (q : String) :
    analyzeAsync env q =
      ((analyzeAfterRss env q (detectScope q) "").1,
        (gatherRssContext env (detectScope q)).2 ++
          (analyzeAfterRss env q (detectScope q) "").2) := by
  unfold analyzeAsync
  dsimp only
  rw [gatherRssContext_ctx]

/-- analyzeAfterRss_noRss: the post-RSS pipeline never reads the RSS
fields of the environment. -/
theorem analyzeAfterRss_noRss (env : Env) (q s c : String) :
    analyzeAfterRss { env with rssPresent := false } q s c = analyzeAfterRss env q s c := by
  cases env
  rfl

/-- gatherRssContext_noRss: with the RSS service absent the gathering
stage does nothing. -/
theorem gatherRssContext_noRss (env : Env) (s : String) :
    gatherRssContext { env with rssPresent := false } s = ("", []) := by
  cases env
  rfl

end PropertyIntel

namespace PropertyIntel

/-- strStarts_append_left: a double concatenation starts with its leftmost
part. -/
theorem strStarts_append_left (a b c : String) : strStarts ((a ++ b) ++ c) a = true := by
  unfold strStarts
  rw [String.data_append, String.data_append, List.append_assoc]
  exact listStarts_append a.data (b.data ++ c.data)

/-- sliceFromBrace_none: text without an opening brace has no slice. -/
theorem sliceFromBrace_none (cs : List Char) (h : ∀ ch ∈ cs, ch ≠ braceChar) :
    sliceFromBrace cs = none := by
  induction cs with
  | nil => rfl
  | cons c rest ih =>
    have hc := h c (List.mem_cons_self c rest)
    simp only [sliceFromBrace, if_neg hc]
    exact ih (fun x hx => h x (List.mem_cons_of_mem c hx))

/-- checkForSearchNecessity_no_brace: plain prose (no opening brace at
all) parses to "no search". -/
theorem checkForSearchNecessity_no_brace (s : String) (h : ∀ ch ∈ s.data, ch ≠ braceChar) :
    checkForSearchNecessity s = none := by
  unfold checkForSearchNecessity sliceBraces
  rw [sliceFromBrace_none s.data h]

/-- eraseP_eq_filter_of_nodup: with unique ids, erasing the first record
matching an id equals keeping every record with a different id. -/
theorem eraseP_eq_filter_of_nodup (db : List StoredQuery) (qid : Nat)
    (h : (db.map (fun r => r.id)).Nodup) :
    db.eraseP (fun r => decide (r.id = qid)) = db.filter (fun r => decide (r.id ≠ qid)) := by
  induction db with
  | nil => rfl
  | cons r rest ih =>
    rw [List.map_cons, List.nodup_cons] at h
    obtain ⟨hnotin, hrest⟩ := h
    by_cases hr : r.id = qid
    · rw [List.eraseP_cons_of_pos (by simp [hr]),
        List.filter_cons_of_neg (by simp [hr])]
      symm
      apply List.filter_eq_self.mpr
      intro x hx
      simp only [decide_eq_true_eq, ne_eq]
      intro hxq
      exact hnotin (by rw [← hr] at hxq; exact hxq ▸ List.mem_map_of_mem (fun r => r.id) hx)
    · rw [List.eraseP_cons_of_neg (by simp [hr]),
        List.filter_cons_of_pos (by simp [hr]), ih hrest]

end PropertyIntel

namespace PropertyIntel

/-- joinLines_cons_ne: joining at least two lines never returns the first
line alone (the separator adds length). -/
theorem joinLines_cons_ne (x y : String) (rest : List String) :
    joinLines (x :: y :: rest) ≠ x := by
  intro h
  have hl : (joinLines (x :: y :: rest)).length = x.length := congrArg String.length h
  rw [joinLines, String.length_append, String.length_append] at hl
  have hn : ("\n" : String).length = 1 := rfl
  omega

/-- C8 (confirmed).  `_detect_location` lower-cases its input and scans the
fixed table (Brisbane, Sydney, Melbourne, Perth, Adelaide) in order,
returning the scope of the first entry one of whose keywords occurs as a
substring of the lower-cased input ("qld" matches inside "qldgovt"); the
empty string and keyword-free strings yield National, and a question
naming both Brisbane and Sydney resolves to Brisbane.  Purity holds by
construction: `detectScope` is a Lean function of the question alone. -/
theorem detect_location_theorem :
    detectScope "" = "National" ∧
    (∀ q : String, (∀ e ∈ locationMapping, entryMatches e (strToLower q) = false) →
      detectScope q = "National") ∧
    (∀ (q : String) (n : Nat) (h : n < locationMapping.length),
      entryMatches (locationMapping.get ⟨n, h⟩) (strToLower q) = true →
      (∀ (m : Nat) (hm : m < n),
        entryMatches (locationMapping.get ⟨m, Nat.lt_trans hm h⟩) (strToLower q) = false) →
      detectScope q = (locationMapping.get ⟨n, h⟩).scope) ∧
    (strHasSub "qldgovt" "qld" = true ∧ detectScope "the qldgovt site" = "Brisbane") ∧
    detectScope "brisbane or sydney?" = "Brisbane" := by
  refine ⟨rfl, ?_, ?_, ⟨rfl, rfl⟩, rfl⟩
  · intro q h
    exact findScope_eq_of_none locationMapping (strToLower q) h
  · intro q n h hmatch hprev
    exact findScope_eq_of_match locationMapping (strToLower q) n h hmatch hprev

/-- detect_location_witness instantiates the first-match clause of the
location theorem at a concrete Brisbane-keyword question. -/
theorem detect_location_witness : detectScope "gold coast listings" = "Brisbane" := by
  have h := detect_location_theorem.2.2.1 "gold coast listings" 0 (by decide) (by decide)
    (fun m hm => absurd hm (Nat.not_lt_zero m))
  exact h

/-- C10 (confirmed).  `delete_query` removes exactly the record whose
primary-key id matches (ids unique): it returns True precisely when such a
record exists, the surviving store keeps every record with a different id
unchanged, and a failing commit rolls back leaving the store untouched
(the exception is re-raised). -/
theorem delete_query_theorem (db : List StoredQuery) (qid : Nat)
    (huniq : (db.map (fun r => r.id)).Nodup) :
    ((deleteQuery db qid true).1 = .ok true ↔ ∃ r ∈ db, r.id = qid) ∧
    (deleteQuery db qid true).2 = db.filter (fun r => decide (r.id ≠ qid)) ∧
    (deleteQuery db qid false).2 = db ∧
    ((∃ r ∈ db, r.id = qid) →
      (deleteQuery db qid false).1 = .error "database error during delete") ∧
    ((∀ r ∈ db, r.id ≠ qid) → ∀ ok, deleteQuery db qid ok = (.ok false, db)) := by
  unfold deleteQuery
  cases hf : db.find? (fun r => decide (r.id = qid)) with
  | none =>
    have hnone : ∀ r ∈ db, r.id ≠ qid := by
      intro r hr
      have := List.find?_eq_none.mp hf r hr
      simpa using this
    refine ⟨?_, ?_, rfl, ?_, ?_⟩
    · constructor
      · intro h; cases h
      · rintro ⟨r, hr, hid⟩; exact absurd hid (hnone r hr)
    · symm
      apply List.filter_eq_self.mpr
      intro x hx
      simpa using hnone x hx
    · rintro ⟨r, hr, hid⟩; exact absurd hid (hnone r hr)
    · intro _ ok; rfl
  | some r =>
    have hrid : r.id = qid := by
      have := List.find?_some hf
      simpa using this
    have hrmem : r ∈ db := List.mem_of_find?_eq_some hf
    refine ⟨?_, ?_, rfl, fun _ => rfl, ?_⟩
    · exact ⟨fun _ => ⟨r, hrmem, hrid⟩, fun _ => rfl⟩
    · exact eraseP_eq_filter_of_nodup db qid huniq
    · intro h
      exact absurd hrid (h r hrmem)

/-- delete_query_witness instantiates the deletion theorem on a concrete
three-record store, deleting id 2. -/
theorem delete_query_witness :
    (deleteQuery demoDb 2 true).1 = .ok true ∧
    (deleteQuery demoDb 2 true).2 = [demoRecord1, demoRecord3] ∧
    (deleteQuery demoDb 2 false).2 = demoDb := by
  have h := delete_query_theorem demoDb 2 (by decide)
  have hmem : demoRecord2 ∈ demoDb :=
    List.mem_cons_of_mem demoRecord1 (List.mem_cons_self demoRecord2 [demoRecord3])
  exact ⟨h.1.mpr ⟨demoRecord2, hmem, by decide⟩, rfl, h.2.2.1⟩

end PropertyIntel

namespace PropertyIntel

/-- C1 counterexample.  A user whose stored `tokens_used` sum (120000,
computed exactly as `get_user_stats` does) exceeds any plausible ceiling
still gets a full pipeline run: the request makes two LLM calls, not zero,
and the result is the ordinary analysis answer — no budget-exceeded result
exists anywhere in the code.  `analyze_property_question` takes only the
question and never consults the store. -/
theorem budget_gate_counterexample :
    userTokenSum demoDb "sarah_buyer" = 120000 ∧
    10000 ≤ userTokenSum demoDb "sarah_buyer" ∧
    ((analyzeAsync envBoth qTrends).2.filter isLlmCall).length = 2 ∧
    lookupKey (analyzeAsync envBoth qTrends).1 "final_answer" =
      some (.pstr "Final answer text.") := by
  exact ⟨rfl, by decide, rfl, rfl⟩

/-- C1 (corrected).  No token-budget gate exists: the pipeline ignores the
requesting user's stored token usage (it does not even receive the user),
and for every store, user and ceiling with the usage at or above the
ceiling, the request still performs at least one LLM-provider call — the
decision call at `services/property_service.py` line 57 is unconditional. -/
theorem no_budget_gate_theorem (db : List StoredQuery) (u : String) (ceiling : Nat)
    (env : Env) (q : String) (hover : ceiling ≤ userTokenSum db u) :
    1 ≤ ((analyzeAsync env q).2.filter isLlmCall).length := by
  obtain ⟨sb, a, cf, p, t, heq, _, _, _⟩ := analyzeAfterRss_cases env q (detectScope q) ""
  rw [analyzeAsync_eq, heq]
  rcases gatherRssContext_trace env (detectScope q) with hg | hg <;>
    simp [hg, List.filter_append, List.filter_cons, isLlmCall]

/-- no_budget_gate_witness instantiates the no-gate theorem at the
concrete over-budget store. -/
theorem no_budget_gate_witness :
    1 ≤ ((analyzeAsync envBoth qTrends).2.filter isLlmCall).length :=
  no_budget_gate_theorem demoDb "sarah_buyer" 10000 envBoth qTrends (by decide)

/-- C2 (confirmed).  Whatever the injected collaborators do — return
failure dicts or raise — `analyze_property_question` returns a dict (all
raises are absorbed by the outer handler of lines 104-107); the dict always
carries a Boolean `success`, and whenever `success` is false the
`final_answer` is the explanatory apology string built from the caught
exception. -/
theorem no_exception_escape_theorem (env : Env) (q : String) :
    (∃ b, lookupKey (analyzeAsync env q).1 "success" = some (.pbool b)) ∧
    (lookupKey (analyzeAsync env q).1 "success" = some (.pbool false) →
      ∃ e, lookupKey (analyzeAsync env q).1 "final_answer" =
        some (.pstr (apologyMsg e))) := by
  obtain ⟨sb, a, cf, p, t, heq, _, hfail, _⟩ := analyzeAfterRss_cases env q (detectScope q) ""
  have h1 : (analyzeAsync env q).1 = packageDict sb a cf p := by rw [analyzeAsync_eq, heq]
  refine ⟨⟨sb, by rw [h1, lookupKey_success]⟩, ?_⟩
  intro hs
  have hsb : sb = false := by
    rw [h1, lookupKey_success] at hs
    simpa using hs
  obtain ⟨e, he⟩ := hfail hsb
  exact ⟨e, by rw [h1, lookupKey_finalAnswer, he]⟩

/-- no_exception_escape_witness instantiates the non-propagation theorem
on the environment whose Claude binding is down. -/
theorem no_exception_escape_witness :
    (∃ b, lookupKey (analyzeAsync envNoClaude qTrends).1 "success" = some (.pbool b)) ∧
    (lookupKey (analyzeAsync envNoClaude qTrends).1 "success" = some (.pbool false) →
      ∃ e, lookupKey (analyzeAsync envNoClaude qTrends).1 "final_answer" =
        some (.pstr (apologyMsg e))) :=
  no_exception_escape_theorem envNoClaude qTrends

/-- C4 counterexample.  On a concrete healthy run the returned dict's keys
are exactly the seven literals of lines 109-117; `token_usage`,
`processing_time` and `location_detected` are not among them, so the
claimed AnalysisResult contract does not hold of the code. -/
theorem result_contract_counterexample :
    (analyzeAsync envBoth qTrends).1.map Prod.fst =
      ["success", "final_answer", "confidence", "question_type",
       "llm_provider", "claude_result", "gemini_result"] ∧
    "token_usage" ∉ (analyzeAsync envBoth qTrends).1.map Prod.fst ∧
    "processing_time" ∉ (analyzeAsync envBoth qTrends).1.map Prod.fst ∧
    "location_detected" ∉ (analyzeAsync envBoth qTrends).1.map Prod.fst := by
  refine ⟨rfl, ?_, ?_, ?_⟩ <;> decide

/-- C4 (corrected).  For every input the result dict carries exactly the
keys success, final_answer, confidence, question_type, llm_provider,
claude_result and gemini_result (a single construction site), and none of
token_usage, processing_time or location_detected. -/
theorem result_contract_theorem (env : Env) (q : String) :
    (analyzeAsync env q).1.map Prod.fst =
      ["success", "final_answer", "confidence", "question_type",
       "llm_provider", "claude_result", "gemini_result"] := by
  obtain ⟨sb, a, cf, p, t, heq, _, _, _⟩ := analyzeAfterRss_cases env q (detectScope q) ""
  have h1 : (analyzeAsync env q).1 = packageDict sb a cf p := by rw [analyzeAsync_eq, heq]
  rw [h1, packageDict_keys]

/-- C5 counterexample.  On a concrete healthy run the returned dict has no
`token_usage` field at all, so it cannot equal any sum of per-call tokens. -/
theorem token_usage_counterexample :
    lookupKey (analyzeAsync envBoth qTrends).1 "token_usage" = none := rfl

/-- C5 (corrected).  No request ever carries a `token_usage` field: the
dict of lines 109-117 has no such key, and the cited
`analyze_with_claude_location` (`services/llm_service.py` lines 112-143)
does not report `tokens_used` either, so no aggregation exists. -/
theorem token_usage_theorem (env : Env) (q : String) :
    lookupKey (analyzeAsync env q).1 "token_usage" = none := by
  obtain ⟨sb, a, cf, p, t, heq, _, _, _⟩ := analyzeAfterRss_cases env q (detectScope q) ""
  have h1 : (analyzeAsync env q).1 = packageDict sb a cf p := by rw [analyzeAsync_eq, heq]
  rw [h1, lookupKey_tokenUsage]

end PropertyIntel

namespace PropertyIntel

/-- C6 counterexample.  With Claude unavailable and Gemini healthy, the
decision step is still sent to Claude (there is no Gemini fallback for the
decision): the run makes zero Gemini calls and fails with the apology
result instead of deciding via Gemini. -/
theorem provider_preference_counterexample :
    envNoClaude.geminiAvailable = true ∧
    ((analyzeAsync envNoClaude qTrends).2.filter isGeminiCall).length = 0 ∧
    lookupKey (analyzeAsync envNoClaude qTrends).1 "success" = some (.pbool false) ∧
    lookupKey (analyzeAsync envNoClaude qTrends).1 "final_answer" =
      some (.pstr (apologyMsg "Claude client not available")) :=
  ⟨rfl, rfl, rfl, rfl⟩

/-- C6 (corrected).  The decision call always goes to Claude — the first
LLM call of every request is the Claude decision call, regardless of
availability (if it fails the pipeline errors out; Gemini is never used
for the decision) — while the synthesis step uses the reversed preference,
and on success `llm_provider` names exactly the synthesis provider
(`gemini` when `gemini_is_available`, else `claude`). -/
theorem provider_preference_theorem (env : Env) (q : String) :
    (∃ rest, (analyzeAsync env q).2.filter isLlmCall =
      Call.claude (buildInitialLlmPrompt q (detectScope q) "") :: rest) ∧
    (lookupKey (analyzeAsync env q).1 "success" = some (.pbool true) →
      lookupKey (analyzeAsync env q).1 "llm_provider" =
        some (.pstr (if env.geminiAvailable then "gemini" else "claude"))) := by
  obtain ⟨sb, a, cf, p, t, heq, _, _, hsucc⟩ := analyzeAfterRss_cases env q (detectScope q) ""
  have h1 : (analyzeAsync env q).1 = packageDict sb a cf p := by rw [analyzeAsync_eq, heq]
  constructor
  · refine ⟨t.filter isLlmCall, ?_⟩
    rw [analyzeAsync_eq, heq]
    rcases gatherRssContext_trace env (detectScope q) with hg | hg <;>
      simp [hg, List.filter_append, List.filter_cons, isLlmCall]
  · intro hs
    have hsb : sb = true := by
      rw [h1, lookupKey_success] at hs
      simpa using hs
    rw [h1, lookupKey_provider, hsucc hsb]

/-- provider_preference_witness instantiates the preference theorem on the
healthy environment: the success branch attributes Gemini. -/
theorem provider_preference_witness :
    lookupKey (analyzeAsync envBoth qTrends).1 "llm_provider" = some (.pstr "gemini") := by
  have h := (provider_preference_theorem envBoth qTrends).2 (by rfl)
  exact h

/-- C7 (confirmed, on the spec-modelled tolerant parse).  When the
decision LLM call returns text in which the tolerant parse finds no
`web_search` object (plain prose, broken JSON, missing `action` key, or an
`analyze_directly` decision), the pipeline performs no web-search call, no
exception arises, and it still proceeds through exactly the two LLM calls
(decision plus synthesis) to a final answer; and any text without an
opening brace parses to "no search" — no query is ever invented. -/
theorem malformed_decision_theorem (env : Env) (q : String) (r : LLMReply)
    (hr : env.claudeReply (buildInitialLlmPrompt q (detectScope q) "") = .ok r)
    (hs : r.success = true)
    (hn : checkForSearchNecessity r.answer = none) :
    (analyzeAsync env q).2.filter isWebCall = [] ∧
    ((analyzeAsync env q).2.filter isLlmCall).length = 2 ∧
    (∃ v, lookupKey (analyzeAsync env q).1 "final_answer" = some (.pstr v)) ∧
    (∀ s : String, (∀ ch ∈ s.data, ch ≠ braceChar) →
      checkForSearchNecessity s = none) := by
  obtain ⟨sb, a, cf, p, hsynth, hfail, hsucc⟩ :=
    synthStep_cases env (buildFinalLlmPrompt q (detectScope q) "" "")
  have hafter : analyzeAfterRss env q (detectScope q) "" =
      (packageDict sb a cf p,
        Call.claude (buildInitialLlmPrompt q (detectScope q) "") ::
          [if env.geminiAvailable then
            Call.gemini (buildFinalLlmPrompt q (detectScope q) "" "")
          else Call.claude (buildFinalLlmPrompt q (detectScope q) "" "")]) := by
    unfold analyzeAfterRss
    dsimp only
    rw [hr]
    simp only [hs, if_true, hn, webStep]
    simp only [hsynth, List.nil_append, List.singleton_append]
  have h2 : (analyzeAsync env q).2 =
      (gatherRssContext env (detectScope q)).2 ++
        (Call.claude (buildInitialLlmPrompt q (detectScope q) "") ::
          [if env.geminiAvailable then
            Call.gemini (buildFinalLlmPrompt q (detectScope q) "" "")
          else Call.claude (buildFinalLlmPrompt q (detectScope q) "" "")]) := by
    rw [analyzeAsync_eq, hafter]
  have h1 : (analyzeAsync env q).1 = packageDict sb a cf p := by
    rw [analyzeAsync_eq, hafter]
  refine ⟨?_, ?_, ⟨a, by rw [h1, lookupKey_finalAnswer]⟩, ?_⟩
  · rw [h2]
    rcases gatherRssContext_trace env (detectScope q) with hg | hg <;>
      cases hgem : env.geminiAvailable <;>
        simp [hg, hgem, List.filter_append, List.filter_cons, isWebCall]
  · rw [h2]
    rcases gatherRssContext_trace env (detectScope q) with hg | hg <;>
      cases hgem : env.geminiAvailable <;>
        simp [hg, hgem, List.filter_append, List.filter_cons, isLlmCall]
  · exact fun s h => checkForSearchNecessity_no_brace s h

/-- malformed_decision_witness instantiates the malformed-decision theorem
on the healthy environment, whose decision reply is brace-free prose. -/
theorem malformed_decision_witness :
    (analyzeAsync envBoth qTrends).2.filter isWebCall = [] ∧
    ((analyzeAsync envBoth qTrends).2.filter isLlmCall).length = 2 ∧
    (∃ v, lookupKey (analyzeAsync envBoth qTrends).1 "final_answer" = some (.pstr v)) ∧
    (∀ s : String, (∀ ch ∈ s.data, ch ≠ braceChar) →
      checkForSearchNecessity s = none) :=
  malformed_decision_theorem envBoth qTrends
    (okReplyWith "This can be analyzed directly from general knowledge.") rfl rfl (by rfl)

/-- C9 (confirmed).  Whenever the RSS stage fails — service absent,
unavailable, returning no articles, or raising — the request is
indistinguishable from a run with no RSS service at all: the returned dict
is identical, the non-RSS call trace is identical, and the pipeline still
proceeds to the Claude decision call with empty RSS context.  In
particular an RSS failure alone never produces an error result. -/
theorem rss_failure_theorem (env : Env) (q : String)
    (h : env.rssPresent = false ∨ env.rssAvailable = false ∨
      env.rssArticles = .ok [] ∨ ∃ e, env.rssArticles = .error e) :
    (analyzeAsync env q).1 = (analyzeAsync { env with rssPresent := false } q).1 ∧
    (analyzeAsync env q).2.filter (fun c => !isRssCall c) =
      (analyzeAsync { env with rssPresent := false } q).2 ∧
    (∃ rest, (analyzeAsync env q).2.filter isLlmCall =
      Call.claude (buildInitialLlmPrompt q (detectScope q) "") :: rest) := by
  have hnr := analyzeAfterRss_noRss env q (detectScope q) ""
  have hg := gatherRssContext_noRss env (detectScope q)
  obtain ⟨sb, a, cf, p, t, heq, htn, _, _⟩ := analyzeAfterRss_cases env q (detectScope q) ""
  have hfilter : ((analyzeAfterRss env q (detectScope q) "").2).filter
      (fun c => !isRssCall c) = (analyzeAfterRss env q (detectScope q) "").2 := by
    apply List.filter_eq_self.mpr
    intro x hx
    rw [heq] at hx
    rcases List.mem_cons.mp hx with rfl | hx
    · rfl
    · simp [htn x hx]
  refine ⟨?_, ?_, ?_⟩
  · rw [analyzeAsync_eq, analyzeAsync_eq, hnr]
  · rw [analyzeAsync_eq, analyzeAsync_eq, hnr, hg, List.filter_append, hfilter,
      List.nil_append]
    rcases gatherRssContext_trace env (detectScope q) with hgt | hgt <;>
      simp [hgt, isRssCall]
  · refine ⟨t.filter isLlmCall, ?_⟩
    rw [analyzeAsync_eq, heq]
    rcases gatherRssContext_trace env (detectScope q) with hgt | hgt <;>
      simp [hgt, List.filter_append, List.filter_cons, isLlmCall]

/-- rss_failure_witness instantiates the RSS-transparency theorem on the
environment whose RSS fetch raises. -/
theorem rss_failure_witness :
    (analyzeAsync envRssRaises qTrends).1 =
      (analyzeAsync { envRssRaises with rssPresent := false } qTrends).1 ∧
    (analyzeAsync envRssRaises qTrends).2.filter (fun c => !isRssCall c) =
      (analyzeAsync { envRssRaises with rssPresent := false } qTrends).2 ∧
    (∃ rest, (analyzeAsync envRssRaises qTrends).2.filter isLlmCall =
      Call.claude (buildInitialLlmPrompt qTrends (detectScope qTrends) "") :: rest) :=
  rss_failure_theorem envRssRaises qTrends (Or.inr (Or.inr (Or.inr ⟨"feed timeout", rfl⟩)))

end PropertyIntel

namespace PropertyIntelV3

/-- analyzeWithClaudeLocation_unavailable: without a Claude client the
call short-circuits to the standard error response, making no API call. -/
theorem analyzeWithClaudeLocation_unavailable (env : Env) (eq : String)
    (loc : LocationInfo) (hc : env.claudeAvailable = false) :
    analyzeWithClaudeLocation env eq loc = errorResponse "Claude client not available" := by
  unfold analyzeWithClaudeLocation
  rw [hc]
  rfl

/-- analyzeWithGeminiLocation_unavailable: without a Gemini model the call
short-circuits to the standard error response. -/
theorem analyzeWithGeminiLocation_unavailable (env : Env) (eq : String)
    (ctx : Option String) (loc : LocationInfo) (hg : env.geminiAvailable = false) :
    analyzeWithGeminiLocation env eq ctx loc = errorResponse "Gemini model not available" := by
  unfold analyzeWithGeminiLocation
  rw [hg]
  rfl

/-- joinLines_cons_starts: a multi-line join starts with its first line. -/
theorem PropertyIntel.joinLines_cons_starts (x y : String) (rest : List String) :
    PropertyIntel.strStarts (PropertyIntel.joinLines (x :: y :: rest)) x = true := by
  rw [PropertyIntel.joinLines]
  exact PropertyIntel.strStarts_append_left _ _ _

/-- formatComprehensiveAnswer_fallback: when both LLM stages failed, the
main part of the answer is the static fallback narrative; the whole answer
equals it when there are no data sources, and otherwise starts with it
(the data-sources appendix follows). -/
theorem formatComprehensiveAnswer_fallback (q : String) (cr gr : LLMResult)
    (hc : cr.success = false) (hg : gr.success = false)
    (ds : List DataSource) (hr : Bool) :
    PropertyIntel.strStarts (formatComprehensiveAnswer q cr gr ds hr)
      (generateFallbackAnswer q) = true ∧
    (ds = [] → formatComprehensiveAnswer q cr gr ds hr = generateFallbackAnswer q) := by
  unfold formatComprehensiveAnswer
  dsimp only
  simp only [hc, hg, Bool.false_eq_true, if_false]
  cases hcond : (hr && !ds.isEmpty) with
  | false =>
    simp only [hcond, Bool.false_eq_true, if_false]
    exact ⟨PropertyIntel.strStarts_self _, fun _ => rfl⟩
  | true =>
    simp only [hcond, if_true]
    constructor
    · rw [List.cons_append]
      exact PropertyIntel.joinLines_cons_starts _ "" _
    · intro hds
      subst hds
      simp at hcond
  
/-- C3 counterexample.  With neither LLM provider available but the RSS
feed returning one article, the v3 pipeline still succeeds, but its
final_answer is the fallback narrative PLUS an appended data-sources
section — it is not equal to the static narrative for the detected scope,
contradicting the claim as stated. -/
theorem fallback_narrative_counterexample :
    env3NoLLMRss.claudeAvailable = false ∧ env3NoLLMRss.geminiAvailable = false ∧
    (analyze env3NoLLMRss PropertyIntel.qTrends).success = true ∧
    (analyze env3NoLLMRss PropertyIntel.qTrends).finalAnswer ≠
      generateFallbackAnswer PropertyIntel.qTrends := by
  refine ⟨rfl, rfl, rfl, ?_⟩
  have heq : (analyze env3NoLLMRss PropertyIntel.qTrends).finalAnswer =
      PropertyIntel.joinLines (generateFallbackAnswer PropertyIntel.qTrends :: "" ::
        "### Current Market Data Sources" :: "" ::
        (sourceLines 1 [convertArticle newsArt] ++
          ["", "---",
           "*Analysis based on real-time RSS data from Australian property investment industry sources*"])) := rfl
  rw [heq]
  exact PropertyIntel.joinLines_cons_ne _ _ _

/-- C3 (corrected).  With no working Claude client and no working Gemini
model the v3 `analyze_property_question` still returns success and does
not throw; the final answer is built from the static fallback narrative
keyed by the detected location scope: it equals the narrative exactly when
no RSS data sources were gathered, and otherwise begins with the narrative
followed by the data-sources appendix. -/
theorem fallback_narrative_theorem (env : Env) (q : String)
    (hc : env.claudeAvailable = false) (hg : env.geminiAvailable = false) :
    (analyze env q).success = true ∧
    PropertyIntel.strStarts (analyze env q).finalAnswer (generateFallbackAnswer q) = true ∧
    (getRealPropertyDataSources env q = [] →
      (analyze env q).finalAnswer = generateFallbackAnswer q) := by
  have hcl := analyzeWithClaudeLocation_unavailable env
    (buildEnhancedQuestion env q (getRealPropertyDataSources env q))
    (detectLocationScope q) hc
  have hgl := analyzeWithGeminiLocation_unavailable env
    (buildEnhancedQuestion env q (getRealPropertyDataSources env q))
    (analyzeWithClaudeLocation env
      (buildEnhancedQuestion env q (getRealPropertyDataSources env q))
      (detectLocationScope q)).analysis
    (detectLocationScope q) hg
  have key := formatComprehensiveAnswer_fallback q
    (analyzeWithClaudeLocation env
      (buildEnhancedQuestion env q (getRealPropertyDataSources env q))
      (detectLocationScope q))
    (analyzeWithGeminiLocation env
      (buildEnhancedQuestion env q (getRealPropertyDataSources env q))
      (analyzeWithClaudeLocation env
        (buildEnhancedQuestion env q (getRealPropertyDataSources env q))
        (detectLocationScope q)).analysis
      (detectLocationScope q))
    (by rw [hcl]; rfl) (by rw [hgl]; rfl)
    (getRealPropertyDataSources env q) (!(getRealPropertyDataSources env q).isEmpty)
  exact ⟨rfl, key.1, key.2⟩

/-- fallback_narrative_witness instantiates the fallback theorem on the
environment with no LLM providers and no RSS service. -/
theorem fallback_narrative_witness :
    (analyze env3NoLLM PropertyIntel.qTrends).success = true ∧
    PropertyIntel.strStarts (analyze env3NoLLM PropertyIntel.qTrends).finalAnswer
      (generateFallbackAnswer PropertyIntel.qTrends) = true ∧
    (getRealPropertyDataSources env3NoLLM PropertyIntel.qTrends = [] →
      (analyze env3NoLLM PropertyIntel.qTrends).finalAnswer =
        generateFallbackAnswer PropertyIntel.qTrends) :=
  fallback_narrative_theorem env3NoLLM PropertyIntel.qTrends rfl rfl

end PropertyIntelV3
